import Mathlib

set_option maxHeartbeats 1000000

namespace PittGoogle

/-!
Shallow embedding of the pittgoogle-client sources (src/pittgoogle/), covering the
parts the claims are about: the Consumer flow control and response handling
(pubsub.py), the Response value (types.py), the JSON-safety serializer and the
LSST wire-framed version parsing (schema.py), the schema registry lookup
(registry.py), and the Alert field lookup and Cloud-Run envelope unpacking
(alert.py, utils.py).
-/

/-! ## Python value model -/

/-- A Python float as far as the code inspects it: `np.isnan` distinguishes NaN; every
other float (including infinities) passes through untouched. -/
inductive PyFloat where
  | nan
  | inf
  | ninf
  | fin (q : Rat)
deriving DecidableEq, Repr

mutual
/-- A Python value of the kinds the relevant code paths inspect. -/
inductive PyVal where
  | pynone
  | pybool (b : Bool)
  | pyint (n : Int)
  | pyfloat (f : PyFloat)
  | pystr (s : String)
  | pybytes (bs : List Nat)
  | pylist (xs : PyList)
  | pydict (kvs : PyDict)
deriving DecidableEq, Repr
/-- A Python list of `PyVal`. -/
inductive PyList where
  | nil
  | cons (v : PyVal) (tl : PyList)
deriving DecidableEq, Repr
/-- A Python dict with string keys (keys unique by construction in CPython; lookup
takes the first binding). -/
inductive PyDict where
  | nil
  | cons (k : String) (v : PyVal) (tl : PyDict)
deriving DecidableEq, Repr
end

/-- Python `d.get(key)` / `key in d` lookup on the dict model. -/
def PyDict.get : PyDict → String → Option PyVal
  | .nil, _ => Option.none
  | .cons k v tl, key => if k = key then some v else tl.get key

/-! ## Consumer flow control (pubsub.py) -/

/-- `pittgoogle.types.Response`: the value a user callback returns.
`ack` says whether to acknowledge the message; `result` is an arbitrary value. -/
structure Response where
  ack : Bool
  result : PyVal
deriving DecidableEq, Repr

/-- Why `Consumer._manage_flow` returned. -/
inductive StopReason where
  | timeout
  | maxResults
deriving DecidableEq, Repr

/-- A Python exception escaping `_manage_flow` (only a `TypeError` can; see below). -/
inductive FlowErr where
  | typeErr
deriving DecidableEq, Repr

/-- `Consumer._manage_flow` (pubsub.py lines 996-1014). The synchronization queue is
modeled as the list of count contributions the background thread will put, in order;
exhausting the list models `queue.get` raising `queue.Empty` (the idle timeout).
The stopping test is translated letter for letter from the source line
`if (self.max_results) & (total_count >= self.max_results):` —
`&` is Python's bitwise AND, so for `max_results = m` and boolean `b` the test is
`m &&& (if b then 1 else 0) ≠ 0`; and when `max_results` is `None`, evaluating
`total_count >= None` raises a TypeError. -/
def manageFlowAux (maxResults : Option Nat) (total : Nat) :
    List Nat → Except FlowErr (Nat × StopReason)
  | [] => .ok (total, .timeout)
  | c :: rest =>
    let t := total + c
    match maxResults with
    | Option.none => .error .typeErr
    | some m =>
      if Nat.land m (if m ≤ t then 1 else 0) ≠ 0 then .ok (t, .maxResults)
      else manageFlowAux maxResults t rest

/-- `Consumer._manage_flow`, starting from `total_count = 0`. -/
def manageFlow (maxResults : Option Nat) (queue : List Nat) :
    Except FlowErr (Nat × StopReason) :=
  manageFlowAux maxResults 0 queue

/-- The observable actions `Consumer.handle_response` performs, in program order:
reporting the count on the synchronization queue, the `queue.join` handshake, and
the final ack or nack of the Pub/Sub message. -/
inductive Event where
  | putCount (n : Nat)
  | queueJoin
  | ackMsg
  | nackMsg
deriving DecidableEq, Repr

/-- `isinstance(response.result, bool) and not response.result` (the False check in
`Consumer.handle_response`). -/
def isFalseBool : PyVal → Bool
  | .pybool false => true
  | _ => false

/-- `response.result is None`. -/
def isNoneVal : PyVal → Bool
  | .pynone => true
  | _ => false

/-- What one call to `Consumer.handle_response` produced when it returned normally:
the count contribution, the updated results accumulator, the ack flag used, and the
ordered list of observable events. -/
structure HandleOutcome where
  count : Nat
  results : List PyVal
  finalAck : Bool
  events : List Event
deriving DecidableEq, Repr

/-- A Python exception escaping a Consumer method. In this snapshot that is the
AttributeError produced by calling NamedTuple API (`_replace`, `_make`, `_fields`)
on the attrs classes of types.py. -/
inductive PyExc where
  | attributeErr
deriving DecidableEq, Repr

/-- The attributes of types.py's `Response`: it is `@attrs.frozen` (types.py line
50) with fields `ack` and `result`. attrs generates no NamedTuple API — in
particular no `_replace`. -/
def typesResponseAttrs : List String := ["ack", "result"]

/-- The `response._replace` bound method the except branch of `handle_response`
calls: absent from the attrs `Response` (see `typesResponseAttrs`), so the
attribute lookup raises AttributeError. -/
def responseReplaceAttr : Option (Response → Bool → Response) := Option.none

/-- Event suffix shared by all paths of `handle_response`: `if self._block:` put the
count, and when `max_results is not None` also join the queue; then ack or nack. -/
def responseEvents (block : Bool) (mrSome : Bool) (count : Nat) (ack : Bool) :
    List Event :=
  (if block then Event.putCount count :: (if mrSome then [Event.queueJoin] else [])
   else [])
    ++ [if ack then Event.ackMsg else Event.nackMsg]

/-- `Consumer.handle_response` (pubsub.py lines 1149-1189). The `try` block
classifies `response.result`: the boolean `False` counts 0 and stores nothing;
`None` counts 1 and stores nothing; anything else counts 1 and is appended to
`self.results`. The only fallible statement in the block is the
`self.results.append` call; `storeRaises` models it raising. The except branch then
runs `response = response._replace(ack=False)` — but types.py's `Response` is an
attrs class with no `_replace` (`responseReplaceAttr`), so that lookup raises
AttributeError and the exception escapes `handle_response` (`.error`): the ack is
not forced to False, no count is reported, and the message is neither acked nor
nacked. On the normal paths the count is put on the queue (blocking mode, with the
`queue.join` handshake when `max_results` is set) and the message is acked or
nacked. -/
def handleResponse (resp : Response) (results : List PyVal)
    (block : Bool) (maxResults : Option Nat) (storeRaises : Bool) :
    Except PyExc HandleOutcome :=
  if isFalseBool resp.result then
    .ok ⟨0, results, resp.ack, responseEvents block maxResults.isSome 0 resp.ack⟩
  else if isNoneVal resp.result then
    .ok ⟨1, results, resp.ack, responseEvents block maxResults.isSome 1 resp.ack⟩
  else if storeRaises then
    match responseReplaceAttr with
    | some replace =>
      let resp2 := replace resp false
      .ok ⟨1, results, resp2.ack, responseEvents block maxResults.isSome 1 resp2.ack⟩
    | Option.none => .error PyExc.attributeErr
  else
    .ok ⟨1, results ++ [resp.result], resp.ack,
      responseEvents block maxResults.isSome 1 resp.ack⟩

/-- Does the event report a count contribution on the synchronization queue? -/
def isPutCount : Event → Bool
  | .putCount _ => true
  | _ => false

/-- Is the event the ack or nack of the Pub/Sub message? -/
def isAckOrNack : Event → Bool
  | .ackMsg => true
  | .nackMsg => true
  | _ => false

/-- Scanning the event list left to right, an ack/nack is seen strictly before any
count report. -/
def ackBeforeCount : List Event → Bool
  | [] => false
  | e :: rest =>
    if isAckOrNack e then rest.any isPutCount
    else if isPutCount e then false
    else ackBeforeCount rest

/-- Scanning the event list left to right, a count report is seen strictly before any
ack/nack. -/
def countBeforeAck : List Event → Bool
  | [] => false
  | e :: rest =>
    if isPutCount e then rest.any isAckOrNack
    else if isAckOrNack e then false
    else countBeforeAck rest

/-! ## Consumer callback (pubsub.py lines 1016-1121) -/

/-- `pittgoogle.types.Alert`: the container `_unpack_msg` builds, fields populated
only as requested in `unpack`. -/
structure AlertNT where
  adict : Option PyVal := Option.none
  abytes : Option (List Nat) := Option.none
  metadata : Option PyVal := Option.none
deriving DecidableEq, Repr

/-- `Consumer._execute_user_callback`: run the user callback; any exception it raises
(modeled as `.error`) is caught and replaced by `Response(ack=False, result=None)`. -/
def executeUserCallback (cb : AlertNT → Except Unit Response) (alert : AlertNT) :
    Response :=
  match cb alert with
  | .ok r => r
  | .error _ => ⟨false, PyVal.pynone⟩

/-- State the Consumer mutates while the stream is open: the results accumulator and,
for observation, the per-message event lists in processing order. -/
structure ConsumerState where
  results : List PyVal
  log : List (List Event)
deriving DecidableEq, Repr

/-- The class-level attributes of types.py's `Alert`: it is `@attrs.frozen`
(types.py line 19) with fields `dict`, `bytes`, `metadata`, `msg`. attrs generates
no NamedTuple API — in particular neither `_fields` nor `_make`. -/
def typesAlertClassAttrs : List String := ["dict", "bytes", "metadata", "msg"]

/-- `Consumer._unpack_msg` (pubsub.py lines 1042-1095). Its final line is
`Alert._make(_my_unpack(self, k, message) for k in Alert._fields)` — NamedTuple API
that the attrs `types.Alert` does not have (see `typesAlertClassAttrs`) — so
evaluating `Alert._fields` raises AttributeError on every message, regardless of
the message contents or the `unpack` configuration. The per-key unpack helpers
above that line are dead code. -/
def unpackMsg {Msg : Type} (_message : Msg) : Except PyExc AlertNT :=
  .error PyExc.attributeErr

/-- `Consumer.callback` for one message (pubsub.py lines 1016-1040): `_unpack_msg`
inside a `try` whose `except Exception` nacks the message and returns (no count, no
user callback — and with this snapshot's `_unpack_msg` that branch is taken on
every message); otherwise the user callback would run (else
`Response(ack=True, result=None)`) followed by `handle_response`. An exception
escaping `handle_response` leaves the callback with nothing observable done to the
queue or the message by this code (the transport wrapper's reaction is outside the
sources); the invocation is logged as an empty event list. -/
def consumerCallback {Msg : Type}
    (userCallback : Option (AlertNT → Except Unit Response))
    (block : Bool) (maxResults : Option Nat) (storeRaises : Bool)
    (st : ConsumerState) (msg : Msg) : ConsumerState :=
  match unpackMsg msg with
  | .error _ => ⟨st.results, st.log ++ [[Event.nackMsg]]⟩
  | .ok alert =>
    let resp :=
      match userCallback with
      | some cb => executeUserCallback cb alert
      | Option.none => ⟨true, PyVal.pynone⟩
    match handleResponse resp st.results block maxResults storeRaises with
    | .ok out => ⟨out.results, st.log ++ [out.events]⟩
    | .error _ => ⟨st.results, st.log ++ [[]]⟩

/-- The background thread invokes `Consumer.callback` once per delivered message; the
loop itself never terminates on a message's account. -/
def processMessages {Msg : Type}
    (userCallback : Option (AlertNT → Except Unit Response))
    (block : Bool) (maxResults : Option Nat) (storeRaises : Bool)
    (st : ConsumerState) (msgs : List Msg) : ConsumerState :=
  msgs.foldl (consumerCallback userCallback block maxResults storeRaises) st

/-! ## JSON-safety normalization (schema.py, Serializers._clean_for_json) -/

/-- The only exception kind `_clean_for_json` raises. -/
inductive CleanErr where
  | typeErr
deriving DecidableEq, Repr

mutual
/-- `Serializers._clean_for_json` (schema.py lines 188-216), the normalization every
JSON-bound serialize path applies (`serialize_json` is
`json.dumps(_clean_for_json(alert_dict)).encode("utf-8")`). `str`, `int` (which in
Python includes `bool`) and `None` pass through; a float is replaced by `None`
exactly when `np.isnan` holds; lists and dicts recurse; every other type — bytes
included — raises `TypeError`. -/
def cleanForJson : PyVal → Except CleanErr PyVal
  | .pystr s => .ok (.pystr s)
  | .pyint n => .ok (.pyint n)
  | .pybool b => .ok (.pybool b)
  | .pynone => .ok .pynone
  | .pyfloat f => .ok (if f = PyFloat.nan then PyVal.pynone else PyVal.pyfloat f)
  | .pylist xs =>
    match cleanList xs with
    | .ok ys => .ok (.pylist ys)
    | .error e => .error e
  | .pydict kvs =>
    match cleanDict kvs with
    | .ok kvs2 => .ok (.pydict kvs2)
    | .error e => .error e
  | .pybytes _ => .error .typeErr
/-- `_clean_for_json` mapped over a list (the comprehension, left to right, first
raise wins). -/
def cleanList : PyList → Except CleanErr PyList
  | .nil => .ok .nil
  | .cons v tl =>
    match cleanForJson v with
    | .error e => .error e
    | .ok w =>
      match cleanList tl with
      | .error e => .error e
      | .ok ws => .ok (.cons w ws)
/-- `_clean_for_json` mapped over a dict's values. -/
def cleanDict : PyDict → Except CleanErr PyDict
  | .nil => .ok .nil
  | .cons k v tl =>
    match cleanForJson v with
    | .error e => .error e
    | .ok w =>
      match cleanDict tl with
      | .error e => .error e
      | .ok ws => .ok (.cons k w ws)
end

mutual
/-- Does the value contain a NaN float anywhere (recursively)? -/
def hasNaN : PyVal → Bool
  | .pyfloat PyFloat.nan => true
  | .pylist xs => hasNaNList xs
  | .pydict kvs => hasNaNDict kvs
  | _ => false
/-- `hasNaN` over a list. -/
def hasNaNList : PyList → Bool
  | .nil => false
  | .cons v tl => hasNaN v || hasNaNList tl
/-- `hasNaN` over a dict's values. -/
def hasNaNDict : PyDict → Bool
  | .nil => false
  | .cons _ v tl => hasNaN v || hasNaNDict tl
end

mutual
/-- Does the value contain a bytes value anywhere (recursively)? Bytes are the one
type in this value universe that `_clean_for_json` does not recognize. -/
def hasBytes : PyVal → Bool
  | .pybytes _ => true
  | .pylist xs => hasBytesList xs
  | .pydict kvs => hasBytesDict kvs
  | _ => false
/-- `hasBytes` over a list. -/
def hasBytesList : PyList → Bool
  | .nil => false
  | .cons v tl => hasBytes v || hasBytesList tl
/-- `hasBytes` over a dict's values. -/
def hasBytesDict : PyDict → Bool
  | .nil => false
  | .cons _ v tl => hasBytes v || hasBytesDict tl
end

/-! ## LSST wire-framed version parsing (schema.py, LsstSchema._from_yaml) -/

/-- The exception classes defined by exceptions.py (lines 1-16): `BadRequest`,
`CloudConnectionError`, `OpenAlertError`, `SchemaNotFoundError`. There is no
`SchemaError` among them, so evaluating `exceptions.SchemaError` in a raise
statement itself raises AttributeError. -/
def exceptionsModuleAttrs : List String :=
  ["BadRequest", "CloudConnectionError", "OpenAlertError", "SchemaNotFoundError"]

/-- Exceptions the version-resolution part of `LsstSchema._from_yaml` can raise:
`struct.error` from unpacking fewer than 5 header bytes; `ValueError` from unpacking
the 2-tuple when `str(version_id)` contains no `"0"`; `schemaErr` is what
`raise exceptions.SchemaError(...)` would produce if the exceptions module defined
that class, and `attributeErr` is the AttributeError the raise statement actually
produces because it does not (see `exceptionsModuleAttrs`). -/
inductive LoadErr where
  | structErr
  | valueErr
  | schemaErr
  | attributeErr
deriving DecidableEq, Repr

/-- `struct.Struct(">bi").unpack(alert_bytes[:5])`: needs at least 5 bytes; byte 0 is
the magic byte (unpacked and discarded), bytes 1-4 are a signed big-endian int32. -/
def confluentWireId (alertBytes : List Nat) : Option Int :=
  match alertBytes with
  | _b0 :: b1 :: b2 :: b3 :: b4 :: _ =>
    let u : Nat := (b1 % 256) * 16777216 + (b2 % 256) * 65536 + (b3 % 256) * 256 + b4 % 256
    some (if u < 2147483648 then (u : Int) else (u : Int) - 4294967296)
  | _ => Option.none

/-- `str(version_id).split("0", maxsplit=1)` followed by the 2-tuple unpacking
`major, minor = ...`: split the rendered integer at its first `'0'`; no `'0'` means
the unpacking raises ValueError. -/
def splitFirstZero : List Char → Option (List Char × List Char)
  | [] => Option.none
  | c :: rest =>
    if c = '0' then some ([], rest)
    else
      match splitFirstZero rest with
      | some (a, b) => some (c :: a, b)
      | Option.none => Option.none

/-- The `(major, minor)` strings `LsstSchema._from_yaml` derives from a version id,
when the 2-tuple unpacking succeeds. -/
def lsstSplitVersion (versionId : Int) : Option (String × String) :=
  match splitFirstZero (toString versionId).data with
  | some (a, b) => some (⟨a⟩, ⟨b⟩)
  | Option.none => Option.none

/-- The allowlist in `LsstSchema._from_yaml`:
`["v7_0", "v7_1", "v7_2", "v7_3", "v7_4"]`. -/
def lsstSupportedVersions : List String := ["v7_0", "v7_1", "v7_2", "v7_3", "v7_4"]

/-- Version resolution of `LsstSchema._from_yaml` (schema.py lines 447-477): unpack
the 5-byte header, derive `(major, minor)` from `str(version_id)` split at its first
zero, build `"v{major}_{minor}"`, and for a version outside the supported list run
`raise exceptions.SchemaError(...)` — which surfaces SchemaError only if the
exceptions module defines that class, and otherwise (as in this snapshot) raises
AttributeError from the attribute lookup itself. On success, return the
`(version, version_id)` pair stored on the Schema. The subsequent path substitution
and `fastavro.schema.load_schema` read of the on-disk definition are filesystem
effects, not modeled. -/
def lsstVersionFromBytes (alertBytes : List Nat) : Except LoadErr (String × Int) :=
  match confluentWireId alertBytes with
  | Option.none => .error .structErr
  | some versionId =>
    match lsstSplitVersion versionId with
    | Option.none => .error .valueErr
    | some (major, minor) =>
      let version := "v" ++ major ++ "_" ++ minor
      if version ∈ lsstSupportedVersions then .ok (version, versionId)
      else if "SchemaError" ∈ exceptionsModuleAttrs then .error .schemaErr
      else .error .attributeErr

/-! ## Schema registry lookup (registry.py, Schemas.get) -/

/-- Exceptions `Schemas.get` can raise: IndexError from `schema_name[0]` on an empty
name (raised inside the `try` but not caught — only AttributeError is); and, when
`getattr(schema, ...)` finds no class, the handler's
`raise exceptions.SchemaError(...)` — `schemaErr` if the exceptions module defined
that class, `attributeErr` (the actual outcome in this snapshot) because it does
not (see `exceptionsModuleAttrs`). -/
inductive RegErr where
  | indexErr
  | schemaErr
  | attributeErr
deriving DecidableEq, Repr

/-- The top-level names of the `pittgoogle.schema` module (schema.py): imports,
module globals, and the class definitions. `getattr(schema, class_name)` succeeds
exactly when `class_name` is in this list. -/
def schemaModuleAttrs : List String :=
  ["abc", "io", "json", "logging", "struct", "types", "Path", "TYPE_CHECKING",
   "Literal", "attrs", "fastavro", "np", "yaml", "__package_path__", "exceptions",
   "LOGGER", "Serializers", "Schema", "DefaultSchema", "ElasticcSchema",
   "LsstSchema", "LvkSchema", "ZtfSchema"]

/-- `schema_name[0].upper() + schema_name[1:]`: IndexError on the empty string. -/
def pyCapitalizeFirst (s : String) : Option String :=
  match s.data with
  | [] => Option.none
  | c :: rest => some ⟨Char.toUpper c :: rest⟩

/-- `manifest["name"].split(".")[0]` — the first dot-delimited segment, i.e. the
characters before the first `'.'` (the whole string when there is none). -/
def firstDotSegment (s : String) : String := ⟨s.data.takeWhile (· ≠ '.')⟩

/-- `Schemas.get` (registry.py lines 68-105) over the manifest's entry names (the
manifest itself is a packaged yaml data file; `get` reads only each entry's
`"name"`). `schema_name=None` becomes `"default"`; the class
`schema_name[0].upper() + schema_name[1:] + "Schema"` is looked up in the schema
module — when absent, the except handler runs `raise exceptions.SchemaError(...)`,
which in this snapshot itself raises AttributeError since the exceptions module
defines no `SchemaError`; then the first manifest entry whose first dot-segment
equals `schema_name` is returned (`Schema._from_yaml` on it is a file-loading
effect, not modeled, so the matched entry name stands for the result); when no
entry matches, the loop falls through and Python returns `None`. -/
def schemasGet (schemaName : Option String) (manifestNames : List String) :
    Except RegErr (Option String) :=
  let name := schemaName.getD "default"
  match pyCapitalizeFirst name with
  | Option.none => .error .indexErr
  | some capped =>
    if capped ++ "Schema" ∈ schemaModuleAttrs then
      .ok (manifestNames.find? fun entry => firstDotSegment entry == name)
    else if "SchemaError" ∈ exceptionsModuleAttrs then .error .schemaErr
    else .error .attributeErr

/-! ## Alert field lookup (alert.py, Alert.get) -/

/-- A value of the schema map `self.schema.map`: a string (single-level rename), a
list of path segments, or anything else (which `Alert.get` rejects). -/
inductive MapVal where
  | mstr (s : String)
  | mlist (xs : List String)
  | mother
deriving DecidableEq, Repr

/-- Exceptions `Alert.get` and its subscript chains can raise. -/
inductive GetErr where
  | keyErr
  | typeErr
  | notImplementedErr
deriving DecidableEq, Repr

/-- `schema.map.get(field)` over the map given as an association list. -/
def mapGet : List (String × MapVal) → String → Option MapVal
  | [], _ => Option.none
  | (k, v) :: tl, key => if k = key then some v else mapGet tl key

/-- Python `v[k]` for a string key: KeyError when `v` is a dict without the key,
TypeError when `v` is not a dict (no other value type in this universe accepts a
string subscript). -/
def pySubscript (v : PyVal) (k : String) : Except GetErr PyVal :=
  match v with
  | .pydict kvs =>
    match kvs.get k with
    | some w => .ok w
    | Option.none => .error .keyErr
  | _ => .error .typeErr

/-- `try: ... except KeyError: return default` around a subscript chain. Other
exceptions (TypeError in particular) propagate. -/
def catchKeyErr (r : Except GetErr PyVal) (default : PyVal) : Except GetErr PyVal :=
  match r with
  | .error .keyErr => .ok default
  | r => r

/-- `Alert.get` (alert.py lines 313-363). `survey_field = self.schema.map.get(field)`;
`None` returns the default; a string does `self.dict.get(survey_field, default)`;
a non-string non-list raises TypeError; a 2-list does
`self.dict[f0][f1]` catching KeyError to the default; a 3-list likewise one level
deeper; any other list length raises NotImplementedError. The generic `field` name
itself is never looked up in the decoded dict. -/
def alertGet (map : List (String × MapVal)) (d : PyDict) (field : String)
    (default : PyVal) : Except GetErr PyVal :=
  match mapGet map field with
  | Option.none => .ok default
  | some (MapVal.mstr s) => .ok ((d.get s).getD default)
  | some MapVal.mother => .error .typeErr
  | some (MapVal.mlist fs) =>
    match fs with
    | [f0, f1] =>
      catchKeyErr
        (match pySubscript (PyVal.pydict d) f0 with
         | .ok v1 => pySubscript v1 f1
         | .error e => .error e)
        default
    | [f0, f1, f2] =>
      catchKeyErr
        (match pySubscript (PyVal.pydict d) f0 with
         | .ok v1 =>
           match pySubscript v1 f1 with
           | .ok v2 => pySubscript v2 f2
           | .error e => .error e
         | .error e => .error e)
        default
    | _ => .error .notImplementedErr

/-! ## Cloud Run envelope and the Alert.dict pipeline (alert.py, utils.py) -/

/-- Errors surfacing from `Alert.from_cloud_run` and the `Alert.dict` property. -/
inductive AlertErr where
  | badRequest
  | keyErr
  | attributeErr
  | openAlertErr
deriving DecidableEq, Repr

/-- Python truthiness of a value (`if not envelope:`). -/
def pyTruthy : PyVal → Bool
  | .pynone => false
  | .pybool b => b
  | .pyint n => n != 0
  | .pyfloat f => f != PyFloat.fin 0
  | .pystr s => s ≠ ""
  | .pybytes bs => bs ≠ []
  | .pylist .nil => false
  | .pylist _ => true
  | .pydict .nil => false
  | .pydict _ => true

/-- The message payload as the Python code holds it: `from_cloud_run` stores the
envelope's `data` value — a base64 str, never decoded — while other constructors
hand the `Alert` raw bytes. -/
inductive PyData where
  | pstr (s : String)
  | pbytes (bs : List Nat)
deriving DecidableEq, Repr

/-- What `Alert.from_cloud_run` stores: a `types_.PubsubMessageLike` whose `data` is
taken verbatim from the envelope, plus the schema name. The `publish_time` string is
kept as extracted (the `datetime.strptime` parse of it is not modeled; no claim
depends on the parsed value). -/
structure AlertModel where
  msgData : PyData
  publishTime : PyVal
  schemaName : Option String
deriving DecidableEq, Repr

/-- `Alert.from_cloud_run` (alert.py lines 92-148): a falsy envelope, a non-dict
envelope, or one without a `"message"` key raises BadRequest; then
`envelope["message"]["publish_time"]` is read unconditionally (KeyError when
absent) and `envelope["message"]["data"]` is stored verbatim (KeyError when
absent). -/
def fromCloudRun (envelope : PyVal) (schemaName : Option String) :
    Except AlertErr AlertModel :=
  if !pyTruthy envelope then .error .badRequest
  else
    match envelope with
    | .pydict kvs =>
      match kvs.get "message" with
      | Option.none => .error .badRequest
      | some message =>
        match message with
        | .pydict msgKvs =>
          match msgKvs.get "publish_time" with
          | Option.none => .error .keyErr
          | some pt =>
            match msgKvs.get "data" with
            | Option.none => .error .keyErr
            | some (.pystr s) => .ok ⟨.pstr s, pt, schemaName⟩
            | some (.pybytes bs) => .ok ⟨.pbytes bs, pt, schemaName⟩
            | some _ => .error .badRequest
        | _ => .error .keyErr
    | _ => .error .badRequest

/-- The static method names defined on `utils.Cast` (utils.py). There is no
`json_to_dict` among them, so `Cast.json_to_dict` raises AttributeError. -/
def castMethodNames : List String :=
  ["bytes_to_b64utf8", "base64_to_dict", "avro_to_dict", "b64avro_to_dict",
   "alert_dict_to_dataframe", "alert_dict_to_table", "_strip_cutouts_ztf",
   "jd_to_readable_date"]

/-- The 4-byte magic an Avro Object Container file starts with (`Obj\x01`), which
`fastavro.reader` checks before anything else. -/
def avroMagic : List Nat := [79, 98, 106, 1]

/-- `Cast.avro_to_dict` (utils.py lines 73-90). The fastavro reader is an external
library, modeled only as far as the claims need: `io.BytesIO` raises TypeError when
handed a Python str, and `fastavro.reader` raises when the bytes do not start with
the Avro file magic; a successful parse is delegated to the `fastavroRead`
parameter, which the theorems quantify over. -/
def avroToDict (fastavroRead : List Nat → Except AlertErr PyVal) (data : PyData) :
    Except AlertErr PyVal :=
  match data with
  | .pstr _ => .error .attributeErr
  | .pbytes bs =>
    if bs.take 4 = avroMagic then fastavroRead bs else .error .openAlertErr

/-- The `getattr(Cast, "json_to_dict")` the `Alert.dict` fallback calls: `utils.Cast`
defines no such method (see `castMethodNames`), so the attribute lookup raises
AttributeError — modeled as the absence of a function. -/
def castJsonToDict : Option (PyData → Except AlertErr PyVal) := Option.none

/-- The fallback pipeline of the `Alert.dict` property (alert.py lines 229-238) for a
survey whose schema carries no schemaless-Avro definition (every survey but
elasticc, and also the no-schema path): `try: Cast.avro_to_dict(...)` and on any
exception `try: Cast.json_to_dict(...)`, raising
`OpenAlertError("failed to deserialize the alert bytes")` when that too raises —
which it always does, since the attribute does not exist. -/
def alertDictFallback (fastavroRead : List Nat → Except AlertErr PyVal)
    (data : PyData) : Except AlertErr PyVal :=
  match avroToDict fastavroRead data with
  | .ok v => .ok v
  | .error _ =>
    match castJsonToDict with
    | some f =>
      match f data with
      | .ok v => .ok v
      | .error _ => .error .openAlertErr
    | Option.none => .error .openAlertErr

/-- Did the Python call return normally (`.ok`) rather than raise (`.error`)? -/
def exOk {ε α : Type} : Except ε α → Bool
  | .ok _ => true
  | .error _ => false

/-- The concrete Cloud-Run push envelope used for the end-to-end scenario: a message
whose `data` is the base64 rendering of the JSON object with `objectId = 7`
(`base64(b"\x7b\x22objectId\x22: 7\x7d") = "eyJvYmplY3RJZCI6IDd9"`), with a
well-formed `publish_time`. -/
def cloudRunEnvelope : PyVal :=
  PyVal.pydict
    (PyDict.cons "message"
      (PyVal.pydict
        (PyDict.cons "data" (PyVal.pystr "eyJvYmplY3RJZCI6IDd9")
          (PyDict.cons "publish_time" (PyVal.pystr "2023-01-01T00:00:00Z")
            PyDict.nil)))
      PyDict.nil)

/-! ## Helper lemmas -/

theorem isFalseBool_false_of_isNoneVal {v : PyVal} (h : isNoneVal v = true) :
    isFalseBool v = false := by
  cases v <;> simp_all [isNoneVal, isFalseBool]

theorem countBeforeAck_responseEvents (mrSome : Bool) (c : Nat) (a : Bool) :
    countBeforeAck (responseEvents true mrSome c a) = true := by
  cases mrSome <;> cases a <;> rfl

theorem consumerCallback_log_length {Msg : Type}
    (c : Option (AlertNT → Except Unit Response)) (b : Bool) (mr : Option Nat)
    (sr : Bool) (st : ConsumerState) (m : Msg) :
    (consumerCallback c b mr sr st m).log.length = st.log.length + 1 := by
  simp [consumerCallback, unpackMsg]

theorem processMessages_log_length {Msg : Type}
    (c : Option (AlertNT → Except Unit Response)) (b : Bool) (mr : Option Nat)
    (sr : Bool) (st : ConsumerState) (msgs : List Msg) :
    (processMessages c b mr sr st msgs).log.length
      = st.log.length + msgs.length := by
  induction msgs generalizing st with
  | nil => rfl
  | cons m rest ih =>
    show (processMessages c b mr sr (consumerCallback c b mr sr st m) rest).log.length = _
    rw [ih, consumerCallback_log_length]
    simp [List.length_cons]
    omega

/-! ## C1 -/

/-- C1: the claim says the blocking Draining loop returns at the first point the
running total reaches `max_results`. It does not: the source tests
`(self.max_results) & (total_count >= self.max_results)` with Python's bitwise `&`,
which is `max_results &&& 1` when the comparison is true — zero for every even
`max_results` (including the default 10). With `max_results = 2` and queued counts
`[1, 1, 1]` the loop sails past the total of 2, consumes the third item, and only
stops by timeout with total 3; with the odd `max_results = 3` the same queue stops
on the max-results condition, confirming the embedding of the test. -/
theorem C1_manage_flow_even_max_results_never_stops :
    manageFlow (some 2) [1, 1, 1] = .ok (3, StopReason.timeout) ∧
    manageFlow (some 3) [1, 1, 1] = .ok (3, StopReason.maxResults) ∧
    manageFlow (some 10) [1, 1, 1, 1, 1, 1, 1, 1, 1, 1, 1]
      = .ok (11, StopReason.timeout) :=
  ⟨rfl, rfl, rfl⟩

/-! ## C2 -/

/-- C2: counterexample — the error path of `handle_response` does not force
`ack=False`. With any storable result (here the int 5) and a raising
`results.append`, the except branch calls `response._replace(ack=False)` on the
attrs `Response`, which has no `_replace`, so `handle_response` raises
AttributeError and returns no outcome at all: there is no ack-forcing, no count
report and no ack/nack step. -/
theorem C2_counterexample_replace_raises :
    handleResponse ⟨true, PyVal.pyint 5⟩ [] true (some 10) true
      = .error PyExc.attributeErr ∧
    ("_replace" ∈ typesResponseAttrs) = false ∧
    (∀ out, handleResponse ⟨true, PyVal.pyint 5⟩ [] true (some 10) true
      ≠ .ok out) := by
  refine ⟨rfl, by decide, ?_⟩
  intro out h
  simp [handleResponse, responseReplaceAttr, isFalseBool, isNoneVal] at h

/-- C2 amended: `handle_response` classification — the boolean `False` result counts
0 and is not appended; `None` counts 1 and is not appended; any other result counts
1 and is appended to the results accumulator; but when the classify/store step
raises (the `results.append` call, the block's only fallible statement), the except
handler itself crashes: `response._replace` does not exist on the attrs `Response`,
so an AttributeError escapes `handle_response` — the ack is NOT forced to False and
the ack/nack step is never reached. -/
theorem C2_amended_response_classification (resp : Response) (results : List PyVal)
    (block : Bool) (mr : Option Nat) :
    (∀ sr, isFalseBool resp.result = true →
      handleResponse resp results block mr sr
        = .ok ⟨0, results, resp.ack, responseEvents block mr.isSome 0 resp.ack⟩) ∧
    (∀ sr, isNoneVal resp.result = true →
      handleResponse resp results block mr sr
        = .ok ⟨1, results, resp.ack, responseEvents block mr.isSome 1 resp.ack⟩) ∧
    (isFalseBool resp.result = false → isNoneVal resp.result = false →
      handleResponse resp results block mr false
        = .ok ⟨1, results ++ [resp.result], resp.ack,
            responseEvents block mr.isSome 1 resp.ack⟩) ∧
    (isFalseBool resp.result = false → isNoneVal resp.result = false →
      handleResponse resp results block mr true = .error PyExc.attributeErr) := by
  refine ⟨?_, ?_, ?_, ?_⟩
  · intro sr h
    simp [handleResponse, h]
  · intro sr h
    simp [handleResponse, h, isFalseBool_false_of_isNoneVal h]
  · intro h1 h2
    simp [handleResponse, h1, h2]
  · intro h1 h2
    simp [handleResponse, h1, h2, responseReplaceAttr]

/-- Witness for C2's amended theorem at concrete inputs: a `False` result counts 0,
an `int` result is stored, and a raising store step escapes as AttributeError. -/
theorem C2_witness :
    handleResponse ⟨true, PyVal.pybool false⟩ [] true (some 10) false
      = .ok ⟨0, [], true, [Event.putCount 0, Event.queueJoin, Event.ackMsg]⟩ ∧
    handleResponse ⟨true, PyVal.pyint 5⟩ [] true (some 10) false
      = .ok ⟨1, [PyVal.pyint 5], true,
          [Event.putCount 1, Event.queueJoin, Event.ackMsg]⟩ ∧
    handleResponse ⟨true, PyVal.pyint 5⟩ [] true (some 10) true
      = .error PyExc.attributeErr := by
  have h1 :=
    (C2_amended_response_classification ⟨true, PyVal.pybool false⟩ [] true
      (some 10)).1 false rfl
  have h3 :=
    (C2_amended_response_classification ⟨true, PyVal.pyint 5⟩ [] true
      (some 10)).2.2.1 rfl rfl
  have h4 :=
    (C2_amended_response_classification ⟨true, PyVal.pyint 5⟩ [] true
      (some 10)).2.2.2 rfl rfl
  exact ⟨h1, h3, h4⟩

/-! ## C3 -/

/-- C3: counterexample — for a plain successfully processed message in blocking mode
(`Response(ack=True, result=None)`, `max_results` set), `handle_response` emits the
count report on the synchronization queue, then the `queue.join` handshake, and only
then the ack: the ack does not happen before the count is reported, contrary to the
claim's ack-before-count ordering. -/
theorem C3_counterexample_ack_not_before_count :
    handleResponse ⟨true, PyVal.pynone⟩ [] true (some 10) false
      = .ok ⟨1, [], true, [Event.putCount 1, Event.queueJoin, Event.ackMsg]⟩ ∧
    ackBeforeCount [Event.putCount 1, Event.queueJoin, Event.ackMsg] = false :=
  ⟨rfl, rfl⟩

/-- C3 amended: whenever `handle_response` returns normally in blocking mode, the
count contribution is reported to the foreground thread via the synchronization
queue (and, when `max_results` is set, the worker joins the queue) strictly before
the message is acked or nacked — count-before-ack, the reverse of the claimed
order. When the classify/store step raises, `handle_response` crashes in its except
handler (AttributeError from the missing `Response._replace`) and neither reports a
count nor acks/nacks. -/
theorem C3_amended_count_reported_before_ack :
    (∀ (resp : Response) (results : List PyVal) (mr : Option Nat) (sr : Bool)
        (out : HandleOutcome),
      handleResponse resp results true mr sr = .ok out →
      countBeforeAck out.events = true) ∧
    (∀ (resp : Response) (results : List PyVal) (block : Bool) (mr : Option Nat),
      isFalseBool resp.result = false → isNoneVal resp.result = false →
      handleResponse resp results block mr true = .error PyExc.attributeErr) := by
  constructor
  · intro resp results mr sr out h
    unfold handleResponse at h
    split at h
    · cases h
      exact countBeforeAck_responseEvents mr.isSome 0 resp.ack
    · split at h
      · cases h
        exact countBeforeAck_responseEvents mr.isSome 1 resp.ack
      · split at h
        · simp [responseReplaceAttr] at h
        · cases h
          exact countBeforeAck_responseEvents mr.isSome 1 resp.ack
  · intro resp results block mr h1 h2
    simp [handleResponse, h1, h2, responseReplaceAttr]

/-- Witness for C3's amended theorem at a concrete input: a stored nacked result
reports its count before the nack. -/
theorem C3_witness :
    countBeforeAck [Event.putCount 1, Event.nackMsg] = true :=
  C3_amended_count_reported_before_ack.1 ⟨false, PyVal.pyint 3⟩ [] Option.none
    false ⟨1, [PyVal.pyint 3], false, [Event.putCount 1, Event.nackMsg]⟩ rfl

/-! ## C4 -/

/-- C4: the claimed scenario is unreachable — a code bug. `_unpack_msg` ends with
`Alert._make(... for k in Alert._fields)`, NamedTuple API that the attrs
`types.Alert` does not provide, so every message raises AttributeError during
unpack, and `Consumer.callback` nacks it and returns: no count contribution is
reported and the user callback never runs — the per-message outcome is identical
for every user callback, raising or not — while the loop does keep processing
subsequent messages (exactly one log entry each). The claimed
raise-inside-the-user-callback path can never execute. -/
theorem C4_unpack_attribute_error_kills_user_callbacks :
    ("_fields" ∈ typesAlertClassAttrs) = false ∧
    ("_make" ∈ typesAlertClassAttrs) = false ∧
    (∀ (Msg : Type) (msg : Msg), unpackMsg msg = .error PyExc.attributeErr) ∧
    (∀ (Msg : Type) (cb : AlertNT → Except Unit Response) (block : Bool)
        (mr : Option Nat) (sr : Bool) (st : ConsumerState) (msg : Msg),
      consumerCallback (some cb) block mr sr st msg
        = ⟨st.results, st.log ++ [[Event.nackMsg]]⟩) ∧
    (∀ (Msg : Type) (cb : AlertNT → Except Unit Response) (block : Bool)
        (mr : Option Nat) (sr : Bool) (st : ConsumerState) (msgs : List Msg),
      (processMessages (some cb) block mr sr st msgs).log.length
        = st.log.length + msgs.length) := by
  refine ⟨by decide, by decide, ?_, ?_, ?_⟩
  · intro Msg msg
    rfl
  · intro Msg cb block mr sr st msg
    rfl
  · intro Msg cb block mr sr st msgs
    exact processMessages_log_length (some cb) block mr sr st msgs

/-! ## C5 helper lemmas (mutual structural induction over the value model) -/

mutual
theorem cleanForJson_ok_no_nan :
    ∀ (v : PyVal) (w : PyVal), cleanForJson v = .ok w → hasNaN w = false
  | .pystr _, w, h => by
    cases h
    rfl
  | .pyint _, w, h => by
    cases h
    rfl
  | .pybool _, w, h => by
    cases h
    rfl
  | .pynone, w, h => by
    cases h
    rfl
  | .pyfloat f, w, h => by
    cases f <;> cases h <;> rfl
  | .pybytes _, w, h => by
    cases h
  | .pylist xs, w, h => by
    unfold cleanForJson at h
    cases hc : cleanList xs with
    | ok ys =>
      rw [hc] at h
      cases h
      simpa [hasNaN] using cleanList_ok_no_nan xs ys hc
    | error e =>
      rw [hc] at h
      cases h
  | .pydict kvs, w, h => by
    unfold cleanForJson at h
    cases hc : cleanDict kvs with
    | ok kvs2 =>
      rw [hc] at h
      cases h
      simpa [hasNaN] using cleanDict_ok_no_nan kvs kvs2 hc
    | error e =>
      rw [hc] at h
      cases h
theorem cleanList_ok_no_nan :
    ∀ (xs ys : PyList), cleanList xs = .ok ys → hasNaNList ys = false
  | .nil, ys, h => by
    cases h
    rfl
  | .cons v tl, ys, h => by
    unfold cleanList at h
    cases hv : cleanForJson v with
    | ok w =>
      rw [hv] at h
      cases ht : cleanList tl with
      | ok ws =>
        rw [ht] at h
        cases h
        simp [hasNaNList, cleanForJson_ok_no_nan v w hv, cleanList_ok_no_nan tl ws ht]
      | error e =>
        rw [ht] at h
        cases h
    | error e =>
      rw [hv] at h
      cases h
theorem cleanDict_ok_no_nan :
    ∀ (kvs kvs2 : PyDict), cleanDict kvs = .ok kvs2 → hasNaNDict kvs2 = false
  | .nil, kvs2, h => by
    cases h
    rfl
  | .cons k v tl, kvs2, h => by
    unfold cleanDict at h
    cases hv : cleanForJson v with
    | ok w =>
      rw [hv] at h
      cases ht : cleanDict tl with
      | ok ws =>
        rw [ht] at h
        cases h
        simp [hasNaNDict, cleanForJson_ok_no_nan v w hv, cleanDict_ok_no_nan tl ws ht]
      | error e =>
        rw [ht] at h
        cases h
    | error e =>
      rw [hv] at h
      cases h
end

mutual
theorem cleanForJson_exOk :
    ∀ v : PyVal, exOk (cleanForJson v) = !hasBytes v
  | .pystr _ => rfl
  | .pyint _ => rfl
  | .pybool _ => rfl
  | .pynone => rfl
  | .pyfloat _ => rfl
  | .pybytes _ => rfl
  | .pylist xs => by
    have h := cleanListExOk xs
    unfold cleanForJson
    cases hc : cleanList xs with
    | ok ys =>
      rw [hc] at h
      simpa [hasBytes, exOk] using h
    | error e =>
      rw [hc] at h
      simpa [hasBytes, exOk] using h
  | .pydict kvs => by
    have h := cleanDictExOk kvs
    unfold cleanForJson
    cases hc : cleanDict kvs with
    | ok kvs2 =>
      rw [hc] at h
      simpa [hasBytes, exOk] using h
    | error e =>
      rw [hc] at h
      simpa [hasBytes, exOk] using h
theorem cleanListExOk :
    ∀ xs : PyList, exOk (cleanList xs) = !hasBytesList xs
  | .nil => rfl
  | .cons v tl => by
    have hv := cleanForJson_exOk v
    have ht := cleanListExOk tl
    unfold cleanList
    cases hcv : cleanForJson v with
    | ok w =>
      rw [hcv] at hv
      cases hct : cleanList tl with
      | ok ws =>
        rw [hct] at ht
        simp [exOk] at hv ht
        simp [exOk, hasBytesList, hv, ht]
      | error e =>
        rw [hct] at ht
        simp [exOk] at hv ht
        simp [exOk, hasBytesList, hv, ht]
    | error e =>
      rw [hcv] at hv
      simp [exOk] at hv
      simp [exOk, hasBytesList, hv]
theorem cleanDictExOk :
    ∀ kvs : PyDict, exOk (cleanDict kvs) = !hasBytesDict kvs
  | .nil => rfl
  | .cons k v tl => by
    have hv := cleanForJson_exOk v
    have ht := cleanDictExOk tl
    unfold cleanDict
    cases hcv : cleanForJson v with
    | ok w =>
      rw [hcv] at hv
      cases hct : cleanDict tl with
      | ok ws =>
        rw [hct] at ht
        simp [exOk] at hv ht
        simp [exOk, hasBytesDict, hv, ht]
      | error e =>
        rw [hct] at ht
        simp [exOk] at hv ht
        simp [exOk, hasBytesDict, hv, ht]
    | error e =>
      rw [hcv] at hv
      simp [exOk] at hv
      simp [exOk, hasBytesDict, hv]
end

theorem cleanForJson_error_iff (v : PyVal) :
    cleanForJson v = .error CleanErr.typeErr ↔ hasBytes v = true := by
  have h := cleanForJson_exOk v
  constructor
  · intro he
    rw [he] at h
    simpa [exOk] using h
  · intro hb
    rw [hb] at h
    cases hc : cleanForJson v with
    | ok w =>
      rw [hc] at h
      simp [exOk] at h
    | error e =>
      cases e
      rfl

/-! ## C5 -/

/-- C5: counterexample — `_clean_for_json` has no bytes case: a bytes value is not
normalized to a base64 string, it raises `TypeError` (it falls through to the
unrecognized-type branch), so the claim that every bytes value becomes a base64
string on the JSON-bound serialize path is false. -/
theorem C5_counterexample_bytes_raise :
    cleanForJson (PyVal.pybytes [104, 105]) = .error CleanErr.typeErr ∧
    ∀ w, cleanForJson (PyVal.pybytes [104, 105]) ≠ .ok w :=
  ⟨rfl, fun _ h => Except.noConfusion h⟩

/-- C5 amended: on the JSON-bound serialize path, normalization is applied
recursively over lists and mappings so that every NaN float becomes null, and a
TypeError-class error is raised for any value whose type is not recognized — which
includes bytes: bytes are not base64-encoded, they are rejected. Formally: a
normal return carries no NaN anywhere; the call raises (necessarily `TypeError`)
exactly when the value contains a bytes value anywhere; and a bytes value itself
always raises. -/
theorem C5_amended_normalization (v : PyVal) :
    (∀ w, cleanForJson v = .ok w → hasNaN w = false) ∧
    (cleanForJson v = .error CleanErr.typeErr ↔ hasBytes v = true) ∧
    (∀ bs, cleanForJson (PyVal.pybytes bs) = .error CleanErr.typeErr) :=
  ⟨fun w h => cleanForJson_ok_no_nan v w h, cleanForJson_error_iff v, fun _ => rfl⟩

/-- Witness for C5's amended theorem: a list holding a NaN float normalizes to a
NaN-free list, and a list holding bytes raises. -/
theorem C5_witness :
    hasNaN (PyVal.pylist (PyList.cons PyVal.pynone PyList.nil)) = false ∧
    cleanForJson (PyVal.pylist (PyList.cons (PyVal.pybytes []) PyList.nil))
      = .error CleanErr.typeErr := by
  have h1 :=
    (C5_amended_normalization
      (PyVal.pylist (PyList.cons (PyVal.pyfloat PyFloat.nan) PyList.nil))).1
      (PyVal.pylist (PyList.cons PyVal.pynone PyList.nil)) rfl
  have h2 :=
    (C5_amended_normalization
      (PyVal.pylist (PyList.cons (PyVal.pybytes []) PyList.nil))).2.1.mpr rfl
  exact ⟨h1, h2⟩

/-! ## C6 -/

/-- C6: code bug — id 703 (header `00 00 00 02 BF`) does resolve to version string
`"v7_3"` with `version_id = 703` stored alongside, but an unsupported id does not
raise SchemaError as the claim states: exceptions.py defines no `SchemaError`
class, so the `raise exceptions.SchemaError(...)` at schema.py line 470 itself
fails with AttributeError. Shown at id 601 (header `00 00 00 02 59`, derived
version `"v6_1"`): the loader dies — there is still no silent fallback to a
default definition — but with AttributeError, not SchemaError. -/
theorem C6_unsupported_version_raises_attribute_error :
    lsstVersionFromBytes [0, 0, 0, 2, 191] = .ok ("v7_3", 703) ∧
    ("SchemaError" ∈ exceptionsModuleAttrs) = false ∧
    lsstVersionFromBytes [0, 0, 0, 2, 89] = .error LoadErr.attributeErr ∧
    (∀ w, lsstVersionFromBytes [0, 0, 0, 2, 89] ≠ .ok w) := by
  refine ⟨rfl, by decide, rfl, ?_⟩
  intro w h
  have h2 : (Except.error LoadErr.attributeErr : Except LoadErr (String × Int))
      = .ok w := h
  exact Except.noConfusion h2

/-! ## C7 -/

/-- C7: counterexample — `Schemas.get` does not resolve manifest entries by exact
name, and a manifest miss does not raise: requesting `"lsst.v7_4.alert"` when the
manifest holds exactly that name raises — the class lookup
`getattr(schema, "Lsst.v7_4.alertSchema")` fails before the manifest is consulted,
and the handler's own `raise exceptions.SchemaError(...)` surfaces AttributeError
because the exceptions module defines no `SchemaError` — while requesting the
known name `"ztf"` against a manifest with no matching entry returns Python's
`None` instead of raising a SchemaNotFound condition. -/
theorem C7_counterexample_get_is_not_name_resolution :
    schemasGet (some "lsst.v7_4.alert") ["lsst.v7_4.alert"]
      = .error RegErr.attributeErr ∧
    schemasGet (some "ztf") [] = .ok Option.none :=
  ⟨rfl, rfl⟩

/-- C7 amended: `Schemas.get(name)` capitalizes the first character of `name`,
appends `"Schema"`, and looks the result up among the schema module's attributes;
when there is no such class it raises — AttributeError, since the handler's
`raise exceptions.SchemaError(...)` refers to a class the exceptions module does
not define — so dotted/versioned names always raise; with a known class it returns
the first manifest entry whose first dot-segment equals `name`, and when no entry
matches it returns `None` rather than raising. -/
theorem C7_amended_get_resolution (name : String) (manifestNames : List String)
    (capped : String) (hcap : pyCapitalizeFirst name = some capped) :
    (capped ++ "Schema" ∉ schemaModuleAttrs →
      schemasGet (some name) manifestNames = .error RegErr.attributeErr) ∧
    (capped ++ "Schema" ∈ schemaModuleAttrs →
      schemasGet (some name) manifestNames
        = .ok (manifestNames.find? fun entry => firstDotSegment entry == name)) ∧
    (capped ++ "Schema" ∈ schemaModuleAttrs →
      (∀ entry ∈ manifestNames, firstDotSegment entry ≠ name) →
      schemasGet (some name) manifestNames = .ok Option.none) := by
  have hexc : "SchemaError" ∉ exceptionsModuleAttrs := by decide
  refine ⟨?_, ?_, ?_⟩
  · intro hnot
    simp [schemasGet, hcap, hnot, hexc]
  · intro hmem
    simp [schemasGet, hcap, hmem]
  · intro hmem hnone
    have hfind : (manifestNames.find? fun entry => firstDotSegment entry == name)
        = Option.none := by
      rw [List.find?_eq_none]
      intro x hx
      simpa using hnone x hx
    simp [schemasGet, hcap, hmem, hfind]

/-- Witness for C7's amended theorem: the known name `"ztf"` against a manifest
whose only entry is an LSST one returns `None`. -/
theorem C7_witness :
    schemasGet (some "ztf") ["lsst.v7_4.alert"] = .ok Option.none := by
  have h := C7_amended_get_resolution "ztf" ["lsst.v7_4.alert"] "Ztf" rfl
  exact h.2.2 (by decide) (by decide)

/-! ## C8 -/

/-- C8: `Alert.get` depth handling — a single-segment (string) map entry returns the
top-level value or the default when the key is absent; a 2-segment entry returns
the nested value, or the default when the first or second key is missing; a
3-segment entry likewise one level deeper with the default for a missing key at any
depth; and a list entry with more than 3 segments raises (NotImplementedError)
rather than truncating. -/
theorem C8_get_depth_handling (map : List (String × MapVal)) (d : PyDict)
    (field : String) (default : PyVal) :
    (∀ s, mapGet map field = some (MapVal.mstr s) →
      (∀ v, d.get s = some v → alertGet map d field default = .ok v) ∧
      (d.get s = Option.none → alertGet map d field default = .ok default)) ∧
    (∀ f0 f1, mapGet map field = some (MapVal.mlist [f0, f1]) →
      (d.get f0 = Option.none → alertGet map d field default = .ok default) ∧
      (∀ d1, d.get f0 = some (PyVal.pydict d1) →
        (d1.get f1 = Option.none → alertGet map d field default = .ok default) ∧
        (∀ v, d1.get f1 = some v → alertGet map d field default = .ok v))) ∧
    (∀ f0 f1 f2, mapGet map field = some (MapVal.mlist [f0, f1, f2]) →
      (d.get f0 = Option.none → alertGet map d field default = .ok default) ∧
      (∀ d1, d.get f0 = some (PyVal.pydict d1) →
        (d1.get f1 = Option.none → alertGet map d field default = .ok default) ∧
        (∀ d2, d1.get f1 = some (PyVal.pydict d2) →
          (d2.get f2 = Option.none → alertGet map d field default = .ok default) ∧
          (∀ v, d2.get f2 = some v → alertGet map d field default = .ok v)))) ∧
    (∀ fs, mapGet map field = some (MapVal.mlist fs) → 3 < fs.length →
      alertGet map d field default = .error GetErr.notImplementedErr) := by
  refine ⟨?_, ?_, ?_, ?_⟩
  · intro s hm
    constructor
    · intro v hv
      simp [alertGet, hm, hv]
    · intro hv
      simp [alertGet, hm, hv]
  · intro f0 f1 hm
    constructor
    · intro h0
      simp [alertGet, hm, pySubscript, h0, catchKeyErr]
    · intro d1 h0
      constructor
      · intro h1
        simp [alertGet, hm, pySubscript, h0, h1, catchKeyErr]
      · intro v h1
        simp [alertGet, hm, pySubscript, h0, h1, catchKeyErr]
  · intro f0 f1 f2 hm
    constructor
    · intro h0
      simp [alertGet, hm, pySubscript, h0, catchKeyErr]
    · intro d1 h0
      constructor
      · intro h1
        simp [alertGet, hm, pySubscript, h0, h1, catchKeyErr]
      · intro d2 h1
        constructor
        · intro h2
          simp [alertGet, hm, pySubscript, h0, h1, h2, catchKeyErr]
        · intro v h2
          simp [alertGet, hm, pySubscript, h0, h1, h2, catchKeyErr]
  · intro fs hm hlen
    rcases fs with _ | ⟨a, _ | ⟨b, _ | ⟨c, _ | ⟨e, rest⟩⟩⟩⟩
    · simp at hlen
    · simp at hlen
    · simp at hlen
    · simp at hlen
    · simp [alertGet, hm]

/-- Witness for C8: a 3-segment entry resolves the nested value, and a 4-segment
entry raises NotImplementedError. -/
theorem C8_witness :
    alertGet [("deep", MapVal.mlist ["p", "q", "r"])]
      (PyDict.cons "p"
        (PyVal.pydict (PyDict.cons "q"
          (PyVal.pydict (PyDict.cons "r" (PyVal.pyint 7) PyDict.nil))
          PyDict.nil))
        PyDict.nil)
      "deep" PyVal.pynone = .ok (PyVal.pyint 7) ∧
    alertGet [("deeper", MapVal.mlist ["w", "x", "y", "z"])] PyDict.nil
      "deeper" PyVal.pynone = .error GetErr.notImplementedErr := by
  have h :=
    (C8_get_depth_handling [("deep", MapVal.mlist ["p", "q", "r"])]
      (PyDict.cons "p"
        (PyVal.pydict (PyDict.cons "q"
          (PyVal.pydict (PyDict.cons "r" (PyVal.pyint 7) PyDict.nil))
          PyDict.nil))
        PyDict.nil)
      "deep" PyVal.pynone).2.2.1 "p" "q" "r" rfl
  have h1 :=
    ((h.2 (PyDict.cons "q"
        (PyVal.pydict (PyDict.cons "r" (PyVal.pyint 7) PyDict.nil))
        PyDict.nil) rfl).2
      (PyDict.cons "r" (PyVal.pyint 7) PyDict.nil) rfl).2 (PyVal.pyint 7) rfl
  have h2 :=
    (C8_get_depth_handling [("deeper", MapVal.mlist ["w", "x", "y", "z"])]
      PyDict.nil "deeper" PyVal.pynone).2.2.2 ["w", "x", "y", "z"] rfl (by decide)
  exact ⟨h1, h2⟩

/-! ## C9 -/

/-- C9: counterexample — the generic field name being a literal key of the decoded
dict does not win. With `schema.map` sending `"objectId"` to `"oid"` and a decoded
dict holding both `"objectId" = 7` and `"oid" = 8`, `Alert.get("objectId")` returns
8 (the map resolution), not the direct hit 7; and with no map entry at all,
`Alert.get("objectId", default)` returns the default even though `"objectId"` is a
literal key with value 7. -/
theorem C9_counterexample_literal_key_does_not_win :
    alertGet [("objectId", MapVal.mstr "oid")]
      (PyDict.cons "objectId" (PyVal.pyint 7)
        (PyDict.cons "oid" (PyVal.pyint 8) PyDict.nil))
      "objectId" PyVal.pynone = .ok (PyVal.pyint 8) ∧
    alertGet [] (PyDict.cons "объектId" (PyVal.pyint 7) PyDict.nil)
      "объектId" PyVal.pynone = .ok PyVal.pynone :=
  ⟨rfl, rfl⟩

/-- C9 amended: `Alert.get` resolves the field only through `schema.map`; the decoded
dict is consulted with the mapped survey-specific name, never with the generic name
itself: when the map has no entry for the field the default is returned no matter
what literal keys the dict holds, and a string map entry reads the dict at the
mapped name. -/
theorem C9_amended_map_only_resolution (map : List (String × MapVal)) (d : PyDict)
    (field : String) (default : PyVal) :
    (mapGet map field = Option.none → alertGet map d field default = .ok default) ∧
    (∀ s, mapGet map field = some (MapVal.mstr s) →
      alertGet map d field default = .ok ((d.get s).getD default)) := by
  constructor
  · intro h
    simp [alertGet, h]
  · intro s h
    simp [alertGet, h]

/-- Witness for C9's amended theorem: no map entry, literal key present, default
returned. -/
theorem C9_witness :
    alertGet [] (PyDict.cons "sourceId" (PyVal.pyint 7) PyDict.nil) "sourceId"
      (PyVal.pystr "missing") = .ok (PyVal.pystr "missing") :=
  (C9_amended_map_only_resolution [] (PyDict.cons "sourceId" (PyVal.pyint 7)
    PyDict.nil) "sourceId" (PyVal.pystr "missing")).1 rfl

/-! ## C10 -/

/-- C10: `from_cloud_run` on the well-formed push envelope succeeds and stores the
base64 `data` string verbatim, but the `Alert.dict` property then raises
OpenAlertError instead of returning the decoded object: `Cast.avro_to_dict` raises
on the non-Avro payload, and the fallback calls `Cast.json_to_dict`, a method
`utils.Cast` does not define, so the AttributeError is swallowed by the bare
`except Exception` and converted to OpenAlertError — for any behavior of the
external fastavro reader. -/
theorem C10_cloud_run_json_dict_raises :
    fromCloudRun cloudRunEnvelope (some "ztf")
      = .ok ⟨.pstr "eyJvYmplY3RJZCI6IDd9", PyVal.pystr "2023-01-01T00:00:00Z",
          some "ztf"⟩ ∧
    (∀ fastavroRead,
      alertDictFallback fastavroRead (PyData.pstr "eyJvYmplY3RJZCI6IDd9")
        = .error AlertErr.openAlertErr) :=
  ⟨rfl, fun _ => rfl⟩

end PittGoogle
